import Mathlib

/-!
Shallow embedding of `src/qwt/src/qwt_plot_print.cpp` (Qwt widget library,
`QwtPlot::print` and its helpers).

Real-valued coordinates (`qreal` / `double`) are modelled by `ℚ`, machine
`int` by `ℤ`.  Collaborating components that live outside this source file
(the layout engine, the per-axis scale widgets, the legend, the painter and
the paint device) are modelled as explicit state records, and every drawing
delegation or filter hook invocation is recorded in an event trace, so that
the theorems below can speak about what is drawn and what state is mutated.
-/

namespace Qwt

/-- Axis identifiers, `enum Axis { yLeft, yRight, xBottom, xTop }` of
`QwtPlot` (values 0, 1, 2, 3). -/
inductive Axis
  | yLeft
  | yRight
  | xBottom
  | xTop
  deriving DecidableEq

/-- The four axes in the loop order `axisId = 0 .. axisCnt - 1`. -/
def axisList : List Axis := [Axis.yLeft, Axis.yRight, Axis.xBottom, Axis.xTop]

/-- Numeric value of an axis id, as in the C++ `enum Axis`. -/
def axisIdx : Axis → ℤ
  | Axis.yLeft => 0
  | Axis.yRight => 1
  | Axis.xBottom => 2
  | Axis.xTop => 3

/-- The axis denoted by a C++ `int` axis id, `none` for an out-of-range id. -/
def axisOfInt (i : ℤ) : Option Axis :=
  if i = 0 then some Axis.yLeft
  else if i = 1 then some Axis.yRight
  else if i = 2 then some Axis.xBottom
  else if i = 3 then some Axis.xTop
  else none

/-- A horizontal axis carries a horizontal scale (top or bottom edge). -/
def Axis.isHorizontal : Axis → Bool
  | Axis.xTop => true
  | Axis.xBottom => true
  | _ => false

/-- `QRectF`: position `(x, y)` of the top-left corner plus width and
height; `right = x + w` and `bottom = y + h` (floating-point rectangle
semantics, unlike the integer `QRect`). -/
structure Rect where
  x : ℚ
  y : ℚ
  w : ℚ
  h : ℚ
  deriving DecidableEq

def Rect.left (r : Rect) : ℚ := r.x

def Rect.right (r : Rect) : ℚ := r.x + r.w

def Rect.top (r : Rect) : ℚ := r.y

def Rect.bottom (r : Rect) : ℚ := r.y + r.h

/-- `QRectF::isValid`: strictly positive width and height. -/
def Rect.isValid (r : Rect) : Bool := decide (0 < r.w) && decide (0 < r.h)

/-- `QTransform` as produced by `transform.scale(sx, sy)`: a pure scale,
no rotation, shear or translation (`m11 = sx`, `m22 = sy`). -/
structure Transform where
  sx : ℚ
  sy : ℚ
  deriving DecidableEq

def Transform.m11 (t : Transform) : ℚ := t.sx

def Transform.m22 (t : Transform) : ℚ := t.sy

/-- `QTransform::isScaling`: true when either diagonal factor differs
from 1. -/
def Transform.isScaling (t : Transform) : Bool := decide (t.sx ≠ 1 ∨ t.sy ≠ 1)

/-- `QTransform::mapRect` for a pure nonnegative scale transform. -/
def Transform.mapRect (t : Transform) (r : Rect) : Rect :=
  { x := t.sx * r.x, y := t.sy * r.y, w := t.sx * r.w, h := t.sy * r.h }

/-- `QTransform::inverted`: the inverse scale; a non-invertible transform
(a zero factor) yields the identity, as in Qt. -/
def Transform.inverted (t : Transform) : Transform :=
  if t.sx = 0 ∨ t.sy = 0 then { sx := 1, sy := 1 }
  else { sx := t.sx⁻¹, sy := t.sy⁻¹ }

/-- Transformation kind of a scale engine (`QwtScaleTransformation`):
linear or logarithmic. -/
inductive TransformKind
  | linear
  | log10
  deriving DecidableEq

/-- `QwtScaleMap`: transformation kind, scale (data) interval `s1, s2` and
paint (pixel) interval `p1, p2`. -/
structure ScaleMap where
  transformation : TransformKind
  s1 : ℚ
  s2 : ℚ
  p1 : ℚ
  p2 : ℚ
  deriving DecidableEq

/-- State of one `QwtScaleWidget` (per-axis scale widget) as read and
written by the printing code: the margin, the border-distance hint pair
returned by `getBorderDistHint`, the current `startBorderDist` /
`endBorderDist`, the color-bar settings, and the position / length of the
underlying `QwtScaleDraw`. -/
structure ScaleWidgetState where
  margin : ℤ
  borderDistHintStart : ℤ
  borderDistHintEnd : ℤ
  startBorderDist : ℤ
  endBorderDist : ℤ
  colorBarEnabled : Bool
  colorBarWidth : ℤ
  spacing : ℤ
  sdOrientationHorizontal : Bool
  sdPos : ℚ × ℚ
  sdLength : ℚ
  deriving DecidableEq

/-- Dereference of a scale-widget pointer.  In `QwtPlot` every valid axis
id owns a scale widget, so the unchecked dereferences of the source (for
example lines 155-156 and 352) never see a null pointer; the default value
is never exercised on those paths. -/
def widgetD (o : Option ScaleWidgetState) : ScaleWidgetState :=
  o.getD ⟨0, 0, 0, 0, 0, false, 0, 0, false, (0, 0), 0⟩

/-- Result of the layout engine's `activate` as read back by the printing
code (`titleRect`, `legendRect`, `scaleRect`, `canvasRect`,
`canvasMargin`).  The layout computation itself lives in
`qwt_plot_layout.cpp`, outside this source file, so its output is an input
of the model. -/
structure LayoutResult where
  titleRect : Rect
  legendRect : Rect
  scaleRect : Axis → Rect
  canvasRect : Rect
  canvasMargin : Axis → ℤ

/-- The plot widget state read and written by the printing code. -/
structure PlotState where
  sizeIsNull : Bool
  logicalDpiX : ℚ
  logicalDpiY : ℚ
  layout : LayoutResult
  axisWidget : Axis → Option ScaleWidgetState
  axisEnabled : Axis → Bool
  axisTransformKind : Axis → TransformKind
  scaleDivLower : Axis → ℚ
  scaleDivUpper : Axis → ℚ
  titleIsEmpty : Bool
  legendPresent : Bool
  legendIsEmpty : Bool
  legendHasDynGridLayout : Bool

/-- The painter handed to `print`, with the metrics of its paint device.
`engineAdjust` stands for "the paint engine exists and its type is neither
`Raster` nor `X11`" (the condition of the background-rectangle shrink in
`printCanvas`, lines 458-470). -/
structure Painter where
  active : Bool
  deviceDpiX : ℚ
  deviceDpiY : ℚ
  engineAdjust : Bool

/-- `QwtPlotPrintFilter` option flags; the code only ever tests each flag
independently with `&`, so a record of independent booleans is an exact
model of the bitmask. -/
structure PrintFilter where
  printBackground : Bool
  printFrameWithScales : Bool
  printTitle : Bool
  printLegend : Bool
  printMargin : Bool
  deriving DecidableEq

/-- `QwtPlotLayout` option flags passed to `activate`. -/
structure LayoutOptions where
  ignoreScrollbars : Bool
  ignoreFrames : Bool
  ignoreMargin : Bool
  ignoreLegend : Bool
  deriving DecidableEq

/-- `QwtScaleDraw::Alignment`. -/
inductive ScaleAlignment
  | leftScale
  | rightScale
  | topScale
  | bottomScale
  deriving DecidableEq

/-- The four per-axis coordinate maps (`QwtScaleMap map[axisCnt]`). -/
structure AxisMaps where
  yLeft : ScaleMap
  yRight : ScaleMap
  xBottom : ScaleMap
  xTop : ScaleMap
  deriving DecidableEq

def AxisMaps.get (m : AxisMaps) : Axis → ScaleMap
  | Axis.yLeft => m.yLeft
  | Axis.yRight => m.yRight
  | Axis.xBottom => m.xBottom
  | Axis.xTop => m.xTop

/-- Observable actions of the printing code: filter hooks, the layout
activation and invalidation, and each delegated drawing call. -/
inductive Event
  | applyFilter (isScaling : Bool)
  | activateLayout (rect : Rect) (opts : LayoutOptions)
  | titleDraw (rect : Rect)
  | legendDraw (rect : Rect)
  | colorBarDraw (axis : Axis) (rect : Rect)
  | scaleTitleDraw (axis : Axis) (align : ScaleAlignment) (rect : Rect)
  | scaleDraw (axis : Axis) (x y : ℤ) (len : ℤ) (baseDist : ℤ)
  | canvasBg (rect : Rect)
  | canvasFrame (rect : Rect)
  | canvasItems (rect : Rect) (maps : AxisMaps)
  | invalidateLayout
  | resetFilter
  deriving DecidableEq

/-- C++ conversion from `double` to `int`: truncation toward zero. -/
def cTrunc (q : ℚ) : ℤ := if 0 ≤ q then ⌊q⌋ else ⌈q⌉

/-- Modelled from the spec: `QwtPlot::axisEnabled` (defined in
`qwt_plot.cpp`, outside this source file) returns the axis's enabled flag
for a valid axis id and `false` for an out-of-range id ("absence of a
collaborator is a normal, expected state"). -/
def axisEnabledZ (plot : PlotState) (i : ℤ) : Bool :=
  match axisOfInt i with
  | some a => plot.axisEnabled a
  | none => false

/-- Rewrite one axis's scale widget in place (pointer-typed mutation of the
widget owned by the plot). -/
def updateWidget (plot : PlotState) (a : Axis)
    (f : ScaleWidgetState → ScaleWidgetState) : PlotState :=
  { plot with axisWidget :=
      Function.update plot.axisWidget a ((plot.axisWidget a).map f) }

/-- Lines 89-97: `scaleWidget->setMargin(0)` for every axis that has a
scale widget. -/
def zeroMargins (plot : PlotState) : PlotState :=
  { plot with axisWidget := fun a =>
      (plot.axisWidget a).map fun sw => { sw with margin := 0 } }

/-- Lines 223-228: `scaleWidget->setMargin(baseLineDists[axisId])` for
every axis that has a scale widget. -/
def restoreMargins (plot : PlotState) (saved : Axis → ℤ) : PlotState :=
  { plot with axisWidget := fun a =>
      (plot.axisWidget a).map fun sw => { sw with margin := saved a } }

/-- The DPI scale transform of lines 77-80:
`scale(deviceDpiX / logicalDpiX, deviceDpiY / logicalDpiY)`. -/
def printTransform (plot : PlotState) (p : Painter) : Transform :=
  { sx := p.deviceDpiX / plot.logicalDpiX
    sy := p.deviceDpiY / plot.logicalDpiY }

/-- The layout option mask of lines 101-106. -/
def printOptions (f : PrintFilter) : LayoutOptions :=
  { ignoreScrollbars := true
    ignoreFrames := true
    ignoreMargin := !f.printMargin
    ignoreLegend := !f.printLegend }

/-- `QwtPlot::printTitle` (lines 243-252): set the painter's font and pen
from the title label and delegate to the title text's draw routine.
Font and pen are painter state (not modelled); the delegated draw is
recorded. -/
def printTitle (rect : Rect) : List Event := [Event.titleDraw rect]

/-- `QwtPlot::printLegend` (lines 261-294): re-check the legend for
presence and non-emptiness, require its contents widget's layout to
inherit `QwtDynGridLayout`, then draw every item clipped to the rectangle
the grid layout assigns it.  The per-item geometry is computed by the
external grid layout; the delegation is recorded as one legend region
draw. -/
def printLegend (plot : PlotState) (rect : Rect) : List Event :=
  if plot.legendPresent = false ∨ plot.legendIsEmpty = true then []
  else if plot.legendHasDynGridLayout = false then []
  else [Event.legendDraw rect]

/-- `QwtPlot::printScale` (lines 345-435).  Early return for a disabled
axis; as `QwtPlot::axisEnabled` is false for an out-of-range id, the
`default:` branch of the `switch` (line 406) is unreachable, which the
`axisOfInt` match mirrors.  The optional color bar adds its width plus
spacing to the base distance; the scale draw's position and length are
overridden for the draw call and restored afterwards (lines 419-432). -/
def printScale (plot : PlotState) (axisId : ℤ)
    (startDist endDist baseDist : ℤ) (rect : Rect) : PlotState × List Event :=
  if axisEnabledZ plot axisId = false then (plot, [])
  else
    match axisOfInt axisId with
    | none => (plot, [])
    | some a =>
      let sw := widgetD (plot.axisWidget a)
      let hasColorBar := sw.colorBarEnabled && decide (0 < sw.colorBarWidth)
      let cbEvents :=
        if hasColorBar then
          [Event.colorBarDraw a { rect with w := rect.w - 1, h := rect.h - 1 }]
        else []
      let baseDist1 :=
        if hasColorBar then
          let off := sw.colorBarWidth + sw.spacing
          if sw.sdOrientationHorizontal then baseDist + off else baseDist + off
        else baseDist
      let x : ℤ :=
        match a with
        | Axis.yLeft => cTrunc (rect.right - 1 - (baseDist1 : ℚ))
        | Axis.yRight => cTrunc (rect.left + (baseDist1 : ℚ))
        | _ => cTrunc (rect.left + (startDist : ℚ))
      let y : ℤ :=
        match a with
        | Axis.xTop => cTrunc (rect.bottom - (baseDist1 : ℚ))
        | Axis.xBottom => cTrunc (rect.top + (baseDist1 : ℚ))
        | _ => cTrunc (rect.y + (startDist : ℚ))
      let len : ℤ :=
        match a with
        | Axis.yLeft | Axis.yRight =>
            cTrunc (rect.h - (startDist : ℚ) - (endDist : ℚ))
        | _ => cTrunc (rect.w - (startDist : ℚ) - (endDist : ℚ))
      let align : ScaleAlignment :=
        match a with
        | Axis.yLeft => ScaleAlignment.leftScale
        | Axis.yRight => ScaleAlignment.rightScale
        | Axis.xTop => ScaleAlignment.topScale
        | Axis.xBottom => ScaleAlignment.bottomScale
      let sdPos0 := sw.sdPos
      let sdLength0 := sw.sdLength
      let plot1 := updateWidget plot a fun w0 =>
        { w0 with sdPos := ((x : ℚ), (y : ℚ)), sdLength := (len : ℚ) }
      let plot2 := updateWidget plot1 a fun w0 =>
        { w0 with sdPos := sdPos0, sdLength := sdLength0 }
      (plot2,
        cbEvents ++
          [Event.scaleTitleDraw a align rect,
           Event.scaleDraw a x y len baseDist1])

/-- Paint interval of the per-axis coordinate map in layout space
(`QwtPlot::print`, lines 152-183): from the scale rectangle minus the
border distances when the axis is enabled, otherwise from the canvas
rectangle adjusted by the canvas margin. -/
def layoutPaintInterval (plot : PlotState) (canvasRect : Rect) (a : Axis) :
    ℚ × ℚ :=
  if plot.axisEnabled a then
    let sDist := (widgetD (plot.axisWidget a)).startBorderDist
    let eDist := (widgetD (plot.axisWidget a)).endBorderDist
    let scaleRect := plot.layout.scaleRect a
    match a with
    | Axis.xTop | Axis.xBottom =>
        (scaleRect.left + (sDist : ℚ), scaleRect.right - (eDist : ℚ))
    | _ =>
        (scaleRect.bottom - (eDist : ℚ), scaleRect.top + (sDist : ℚ))
  else
    let margin := plot.layout.canvasMargin a
    match a with
    | Axis.yLeft | Axis.yRight =>
        (canvasRect.bottom - 1 - (margin : ℚ), canvasRect.top + (margin : ℚ))
    | _ =>
        (canvasRect.left + (margin : ℚ), canvasRect.right - 1 - (margin : ℚ))

/-- One per-axis map as built in lines 143-185: transformation kind from
the scale engine, data interval from the scale division, paint interval
from `layoutPaintInterval`. -/
def buildMap (plot : PlotState) (canvasRect : Rect) (a : Axis) : ScaleMap :=
  { transformation := plot.axisTransformKind a
    s1 := plot.scaleDivLower a
    s2 := plot.scaleDivUpper a
    p1 := (layoutPaintInterval plot canvasRect a).1
    p2 := (layoutPaintInterval plot canvasRect a).2 }

def buildMaps (plot : PlotState) (canvasRect : Rect) : AxisMaps :=
  { yLeft := buildMap plot canvasRect Axis.yLeft
    yRight := buildMap plot canvasRect Axis.yRight
    xBottom := buildMap plot canvasRect Axis.xBottom
    xTop := buildMap plot canvasRect Axis.xTop }

/-- Lines 194-211: rescale one map's paint interval to device resolution,
with `m11` for the horizontal axes and `m22` for the vertical ones. -/
def rescaleMap (t : Transform) (a : Axis) (m : ScaleMap) : ScaleMap :=
  let factor := if a.isHorizontal then t.m11 else t.m22
  { m with p1 := m.p1 * factor, p2 := m.p2 * factor }

def rescaleMaps (t : Transform) (m : AxisMaps) : AxisMaps :=
  { yLeft := rescaleMap t Axis.yLeft m.yLeft
    yRight := rescaleMap t Axis.yRight m.yRight
    xBottom := rescaleMap t Axis.xBottom m.xBottom
    xTop := rescaleMap t Axis.xTop m.xTop }

/-- `QwtPlot::printCanvas` (lines 447-489): optional background fill
(shrunk by one when no frame is printed and the paint engine requires it),
optional black frame, then clip to the canvas rectangle and delegate to
`drawItems` with the maps. -/
def printCanvas (p : Painter) (canvasRect : Rect) (maps : AxisMaps)
    (pfilter : PrintFilter) : List Event :=
  (if pfilter.printBackground = true then
    let r :=
      if pfilter.printFrameWithScales = false ∧ p.engineAdjust = true then
        { canvasRect with w := canvasRect.w - 1, h := canvasRect.h - 1 }
      else canvasRect
    [Event.canvasBg r]
  else []) ++
  (if pfilter.printFrameWithScales = true then [Event.canvasFrame canvasRect]
   else []) ++
  [Event.canvasItems canvasRect maps]

/-- One iteration of the scale loop of lines 126-139: skip an axis without
a scale widget, otherwise read its margin and border-distance hint and call
`printScale` with the layout's scale rectangle. -/
def scaleStep (st : PlotState × List Event) (a : Axis) :
    PlotState × List Event :=
  match st.1.axisWidget a with
  | none => st
  | some sw =>
      let res := printScale st.1 (axisIdx a) sw.borderDistHintStart
        sw.borderDistHintEnd sw.margin (st.1.layout.scaleRect a)
      (res.1, st.2 ++ res.2)

def scaleLoop (plot : PlotState) : PlotState × List Event :=
  axisList.foldl scaleStep (plot, [])

/-- `QwtPlot::print(QPainter *, const QRectF &, const QwtPlotPrintFilter &)`
(lines 63-234).  Early silent return for a null or inactive painter, an
invalid rectangle or a null widget size; otherwise: apply the filter hook,
zero the margins when `PrintFrameWithScales` is set, activate the layout
on the inverse-mapped rectangle, draw title, legend and scales, build and
rescale the coordinate maps, draw the canvas, invalidate the layout,
restore the margins and invoke the filter's reset hook.  Painter
save/restore and transform changes are painter state, not modelled. -/
def print (plot : PlotState) (painter : Option Painter) (plotRect : Rect)
    (pfilter : PrintFilter) : PlotState × List Event :=
  match painter with
  | none => (plot, [])
  | some p =>
    if p.active = false ∨ plotRect.isValid = false ∨ plot.sizeIsNull = true
    then (plot, [])
    else
      let transform := printTransform plot p
      let savedMargins : Axis → ℤ := fun a =>
        ((plot.axisWidget a).map ScaleWidgetState.margin).getD 0
      let plot1 :=
        if pfilter.printFrameWithScales = true then zeroMargins plot else plot
      let layoutRect := (Transform.inverted transform).mapRect plotRect
      let titleEvents :=
        if pfilter.printTitle = true ∧ plot1.titleIsEmpty = false then
          printTitle plot1.layout.titleRect
        else []
      let legendEvents :=
        if pfilter.printLegend = true ∧ plot1.legendPresent = true ∧
            plot1.legendIsEmpty = false then
          printLegend plot1 plot1.layout.legendRect
        else []
      let scaleRes := scaleLoop plot1
      let canvasRect0 := scaleRes.1.layout.canvasRect
      let maps1 := rescaleMaps transform (buildMaps scaleRes.1 canvasRect0)
      let canvasEvents :=
        printCanvas p (transform.mapRect canvasRect0) maps1 pfilter
      let plotFinal :=
        if pfilter.printFrameWithScales = true then
          restoreMargins scaleRes.1 savedMargins
        else scaleRes.1
      (plotFinal,
        Event.applyFilter transform.isScaling ::
        Event.activateLayout layoutRect (printOptions pfilter) ::
        (titleEvents ++ legendEvents ++ scaleRes.2 ++ canvasEvents ++
          [Event.invalidateLayout, Event.resetFilter]))

/-- `QwtPlot::print(QPaintDevice &, const QwtPlotPrintFilter &)`
(lines 38-51): target rectangle derived from the device metrics.
`aspect` is computed in `double`; for `h = 0` the C++ comparison
`aspect < 1.0` is false (division by zero gives infinity or NaN), which
the `0 < h` conjunct mirrors; the `int(...)` conversion truncates. -/
def devicePrintRect (w h : ℕ) : Rect :=
  if 0 < h ∧ (w : ℚ) / (h : ℚ) < 1 then
    { x := 0, y := 0, w := (w : ℚ),
      h := ((cTrunc ((w : ℚ) / (h : ℚ) * (w : ℚ))) : ℚ) }
  else
    { x := 0, y := 0, w := (w : ℚ), h := (h : ℚ) }

/-- Events produced by the scale loop of lines 126-139 for one axis. -/
def scaleEvsFor (plot : PlotState) (a : Axis) : List Event :=
  match plot.axisWidget a with
  | none => []
  | some sw =>
      (printScale plot (axisIdx a) sw.borderDistHintStart
        sw.borderDistHintEnd sw.margin (plot.layout.scaleRect a)).2

/-- The plot state active while the body of `print` runs: margins zeroed
exactly when `PrintFrameWithScales` is set. -/
def printBodyState (plot : PlotState) (f : PrintFilter) : PlotState :=
  if f.printFrameWithScales = true then zeroMargins plot else plot

def Event.isTitleDraw : Event → Bool
  | Event.titleDraw _ => true
  | _ => false

def Event.isLegendDraw : Event → Bool
  | Event.legendDraw _ => true
  | _ => false

def Event.isScaleDraw : Event → Bool
  | Event.scaleDraw _ _ _ _ _ => true
  | _ => false

def Event.isCanvasItems : Event → Bool
  | Event.canvasItems _ _ => true
  | _ => false

/-- Events that `printScale` can emit. -/
def Event.fromScale : Event → Bool
  | Event.colorBarDraw _ _ => true
  | Event.scaleTitleDraw _ _ _ => true
  | Event.scaleDraw _ _ _ _ _ => true
  | _ => false

/-- First `canvasItems` event of a trace: the rectangle and maps handed to
`drawItems`. -/
def findCanvasItems : List Event → Option (Rect × AxisMaps)
  | [] => none
  | Event.canvasItems r m :: _ => some (r, m)
  | _ :: rest => findCanvasItems rest

/-- First `activateLayout` event of a trace: the rectangle and option mask
handed to the layout engine. -/
def findActivate : List Event → Option (Rect × LayoutOptions)
  | [] => none
  | Event.activateLayout r o :: _ => some (r, o)
  | _ :: rest => findActivate rest

/-- The paint interval of one axis's map as handed to the canvas drawing,
paired as `(p1, p2)`. -/
def canvasMapP (tr : List Event) (a : Axis) : Option (ℚ × ℚ) :=
  (findCanvasItems tr).map fun pr => ((pr.2.get a).p1, (pr.2.get a).p2)

/-- Variant of `printScale` following the spec's words for the color-bar
offset: "its rendered width plus spacing is added to the base offset" —
one unconditional addition in place of the orientation branch of
lines 363-366. -/
def printScaleUncond (plot : PlotState) (axisId : ℤ)
    (startDist endDist baseDist : ℤ) (rect : Rect) : PlotState × List Event :=
  if axisEnabledZ plot axisId = false then (plot, [])
  else
    match axisOfInt axisId with
    | none => (plot, [])
    | some a =>
      let sw := widgetD (plot.axisWidget a)
      let hasColorBar := sw.colorBarEnabled && decide (0 < sw.colorBarWidth)
      let cbEvents :=
        if hasColorBar then
          [Event.colorBarDraw a { rect with w := rect.w - 1, h := rect.h - 1 }]
        else []
      let baseDist1 :=
        if hasColorBar then baseDist + (sw.colorBarWidth + sw.spacing)
        else baseDist
      let x : ℤ :=
        match a with
        | Axis.yLeft => cTrunc (rect.right - 1 - (baseDist1 : ℚ))
        | Axis.yRight => cTrunc (rect.left + (baseDist1 : ℚ))
        | _ => cTrunc (rect.left + (startDist : ℚ))
      let y : ℤ :=
        match a with
        | Axis.xTop => cTrunc (rect.bottom - (baseDist1 : ℚ))
        | Axis.xBottom => cTrunc (rect.top + (baseDist1 : ℚ))
        | _ => cTrunc (rect.y + (startDist : ℚ))
      let len : ℤ :=
        match a with
        | Axis.yLeft | Axis.yRight =>
            cTrunc (rect.h - (startDist : ℚ) - (endDist : ℚ))
        | _ => cTrunc (rect.w - (startDist : ℚ) - (endDist : ℚ))
      let align : ScaleAlignment :=
        match a with
        | Axis.yLeft => ScaleAlignment.leftScale
        | Axis.yRight => ScaleAlignment.rightScale
        | Axis.xTop => ScaleAlignment.topScale
        | Axis.xBottom => ScaleAlignment.bottomScale
      let sdPos0 := sw.sdPos
      let sdLength0 := sw.sdLength
      let plot1 := updateWidget plot a fun w0 =>
        { w0 with sdPos := ((x : ℚ), (y : ℚ)), sdLength := (len : ℚ) }
      let plot2 := updateWidget plot1 a fun w0 =>
        { w0 with sdPos := sdPos0, sdLength := sdLength0 }
      (plot2,
        cbEvents ++
          [Event.scaleTitleDraw a align rect,
           Event.scaleDraw a x y len baseDist1])

/-! ### Concrete fixtures used by witnesses and counterexamples -/

def sampleLayout : LayoutResult :=
  { titleRect := ⟨0, 0, 100, 10⟩
    legendRect := ⟨0, 10, 100, 10⟩
    scaleRect := fun _ => ⟨0, 20, 10, 60⟩
    canvasRect := ⟨10, 20, 80, 60⟩
    canvasMargin := fun _ => 2 }

def sampleWidget : ScaleWidgetState :=
  { margin := 3
    borderDistHintStart := 1
    borderDistHintEnd := 1
    startBorderDist := 1
    endBorderDist := 1
    colorBarEnabled := false
    colorBarWidth := 0
    spacing := 0
    sdOrientationHorizontal := false
    sdPos := (0, 0)
    sdLength := 50 }

def samplePlot : PlotState :=
  { sizeIsNull := false
    logicalDpiX := 96
    logicalDpiY := 96
    layout := sampleLayout
    axisWidget := fun _ => some sampleWidget
    axisEnabled := fun a => decide (a = Axis.yLeft) || decide (a = Axis.xBottom)
    axisTransformKind := fun _ => TransformKind.linear
    scaleDivLower := fun _ => 0
    scaleDivUpper := fun _ => 10
    titleIsEmpty := false
    legendPresent := true
    legendIsEmpty := false
    legendHasDynGridLayout := true }

def samplePainter : Painter :=
  { active := true, deviceDpiX := 192, deviceDpiY := 96, engineAdjust := false }

def sampleRect : Rect := ⟨0, 0, 200, 100⟩

def sampleFilter : PrintFilter :=
  { printBackground := false
    printFrameWithScales := true
    printTitle := true
    printLegend := true
    printMargin := false }

/-- A filter with no option flags set. -/
def plainFilter : PrintFilter :=
  { printBackground := false
    printFrameWithScales := false
    printTitle := false
    printLegend := false
    printMargin := false }

/-- A filter with exactly `PrintTitle` and `PrintLegend` set. -/
def titleLegendFilter : PrintFilter :=
  { printBackground := false
    printFrameWithScales := false
    printTitle := true
    printLegend := true
    printMargin := false }

/-- A painter whose device has the same DPI as the widget (identity
transform). -/
def unitPainter : Painter :=
  { active := true, deviceDpiX := 96, deviceDpiY := 96, engineAdjust := false }

/-- A scale widget whose end border distance exceeds the height of the
scale rectangle `sampleLayout` assigns (60). -/
def wideDistWidget : ScaleWidgetState :=
  { sampleWidget with startBorderDist := 0, endBorderDist := 70 }

/-- A plot whose enabled left axis has border distances larger than its
scale rectangle. -/
def wideDistPlot : PlotState :=
  { samplePlot with axisWidget := fun _ => some wideDistWidget }

/-! ### State-restoration lemmas -/

lemma updateWidget_axisWidget (plot : PlotState) (a : Axis)
    (f : ScaleWidgetState → ScaleWidgetState) :
    (updateWidget plot a f).axisWidget =
      Function.update plot.axisWidget a ((plot.axisWidget a).map f) := rfl

/-- `printScale` leaves the plot state as it found it: the scale draw's
position and length are overridden for the draw call and restored. -/
lemma printScale_fst (plot : PlotState) (i s e b : ℤ) (r : Rect) :
    (printScale plot i s e b r).1 = plot := by
  unfold printScale
  split
  · rfl
  · split
    · rfl
    · rename_i a heq
      simp only [updateWidget, Function.update_idem, Function.update_same]
      cases h : plot.axisWidget a with
      | none =>
          simp only [h, Option.map_none']
          rw [← h, Function.update_eq_self]
      | some sw =>
          simp only [h, Option.map_some', widgetD, Option.getD_some]
          rw [← h, Function.update_eq_self]

lemma scaleStep_fst (st : PlotState × List Event) (a : Axis) :
    (scaleStep st a).1 = st.1 := by
  unfold scaleStep
  cases h : st.1.axisWidget a <;> simp [h, printScale_fst]

lemma scaleLoop_fst (plot : PlotState) : (scaleLoop plot).1 = plot := by
  simp [scaleLoop, axisList, scaleStep_fst]

lemma scaleStep_snd (st : PlotState × List Event) (a : Axis) :
    (scaleStep st a).2 = st.2 ++ scaleEvsFor st.1 a := by
  unfold scaleStep scaleEvsFor
  cases h : st.1.axisWidget a <;> simp [h]

lemma scaleLoop_snd (plot : PlotState) :
    (scaleLoop plot).2 =
      scaleEvsFor plot Axis.yLeft ++ scaleEvsFor plot Axis.yRight ++
      scaleEvsFor plot Axis.xBottom ++ scaleEvsFor plot Axis.xTop := by
  simp [scaleLoop, axisList, scaleStep_snd, scaleStep_fst, List.append_assoc]

/-- Restoring the margins saved before zeroing recovers the original
state. -/
lemma restore_zero (plot : PlotState) :
    restoreMargins (zeroMargins plot)
      (fun a => ((plot.axisWidget a).map ScaleWidgetState.margin).getD 0) =
      plot := by
  cases plot with
  | mk sz dx dy lay aw en tk lo hi te lp le lg =>
      simp only [zeroMargins, restoreMargins]
      congr 1
      funext a
      cases aw a <;> rfl

/-- The printing routine restores every widget property it mutates: the
final plot state equals the initial one on every path. -/
lemma print_fst_eq (plot : PlotState) (painter : Option Painter)
    (rect : Rect) (f : PrintFilter) :
    (print plot painter rect f).1 = plot := by
  cases painter with
  | none => rfl
  | some p =>
      by_cases hc : p.active = false ∨ rect.isValid = false ∨ plot.sizeIsNull = true
      · simp [print, hc]
      · by_cases hf : f.printFrameWithScales = true
        · simpa [print, hc, hf, scaleLoop_fst] using restore_zero plot
        · simp [print, hc, hf, scaleLoop_fst]

/-! ### Classifying trace events -/

lemma printScale_snd_all (plot : PlotState) (i s e b : ℤ) (r : Rect) :
    ∀ ev ∈ (printScale plot i s e b r).2, ev.fromScale = true := by
  unfold printScale
  split
  · simp
  · split
    · simp
    · intro ev hev
      simp only [List.mem_append, List.mem_cons, List.not_mem_nil,
        or_false] at hev
      rcases hev with hev | hev | hev
      · split at hev
        · rcases List.mem_singleton.mp hev with rfl; rfl
        · exact absurd hev (List.not_mem_nil ev)
      · rcases hev with rfl; rfl
      · rcases hev with rfl; rfl

lemma countP_eq_zero_of_fromScale {l : List Event} {q : Event → Bool}
    (hall : ∀ ev ∈ l, Event.fromScale ev = true)
    (hq : ∀ ev, Event.fromScale ev = true → q ev = false) :
    l.countP q = 0 :=
  List.countP_eq_zero.mpr fun ev hev => by simp [hq ev (hall ev hev)]

lemma axisOfInt_axisIdx (a : Axis) : axisOfInt (axisIdx a) = some a := by
  cases a <;> rfl

lemma axisEnabledZ_axisIdx (plot : PlotState) (a : Axis) :
    axisEnabledZ plot (axisIdx a) = plot.axisEnabled a := by
  rw [axisEnabledZ, axisOfInt_axisIdx]

/-- `printScale` emits exactly one tick-line draw when the axis is
enabled and none otherwise. -/
lemma printScale_countP_scaleDraw (plot : PlotState) (i s e b : ℤ)
    (r : Rect) :
    ((printScale plot i s e b r).2).countP Event.isScaleDraw =
      if axisEnabledZ plot i = true then 1 else 0 := by
  unfold printScale
  split
  · rename_i h
    rw [if_neg]
    · simp
    · simp [h]
  · rename_i h
    split
    · rename_i hna
      exfalso
      apply h
      simp [axisEnabledZ, hna]
    · rename_i a heq
      rw [if_pos (by simpa using h)]
      simp only [List.countP_append, List.countP_cons, List.countP_nil]
      split
      · simp [Event.isScaleDraw, List.countP_singleton]
      · simp [Event.isScaleDraw]

/-! ### Zeroing the margins leaves everything but the margins alone -/

lemma zeroMargins_layout (plot : PlotState) :
    (zeroMargins plot).layout = plot.layout := rfl

lemma zeroMargins_axisEnabled (plot : PlotState) :
    (zeroMargins plot).axisEnabled = plot.axisEnabled := rfl

lemma zeroMargins_titleIsEmpty (plot : PlotState) :
    (zeroMargins plot).titleIsEmpty = plot.titleIsEmpty := rfl

lemma zeroMargins_legendPresent (plot : PlotState) :
    (zeroMargins plot).legendPresent = plot.legendPresent := rfl

lemma zeroMargins_legendIsEmpty (plot : PlotState) :
    (zeroMargins plot).legendIsEmpty = plot.legendIsEmpty := rfl

lemma printLegend_zeroMargins (plot : PlotState) (r : Rect) :
    printLegend (zeroMargins plot) r = printLegend plot r := rfl

lemma zeroMargins_isSome (plot : PlotState) (a : Axis) :
    ((zeroMargins plot).axisWidget a).isSome = (plot.axisWidget a).isSome := by
  simp [zeroMargins]

lemma layoutPaintInterval_zeroMargins (plot : PlotState) (cr : Rect)
    (a : Axis) :
    layoutPaintInterval (zeroMargins plot) cr a =
      layoutPaintInterval plot cr a := by
  unfold layoutPaintInterval
  cases h : plot.axisWidget a <;>
    simp [zeroMargins, h, widgetD]

lemma buildMap_zeroMargins (plot : PlotState) (cr : Rect) (a : Axis) :
    buildMap (zeroMargins plot) cr a = buildMap plot cr a := by
  unfold buildMap
  rw [layoutPaintInterval_zeroMargins]
  rfl

lemma buildMaps_zeroMargins (plot : PlotState) (cr : Rect) :
    buildMaps (zeroMargins plot) cr = buildMaps plot cr := by
  unfold buildMaps
  rw [buildMap_zeroMargins, buildMap_zeroMargins, buildMap_zeroMargins,
    buildMap_zeroMargins]

/-- The full event trace of a valid `print` call. -/
lemma print_trace (plot : PlotState) (p : Painter) (rect : Rect)
    (f : PrintFilter) (hp : p.active = true) (hr : rect.isValid = true)
    (hs : plot.sizeIsNull = false) :
    (print plot (some p) rect f).2 =
      Event.applyFilter (printTransform plot p).isScaling ::
      Event.activateLayout
        ((printTransform plot p).inverted.mapRect rect) (printOptions f) ::
      ((if f.printTitle = true ∧ plot.titleIsEmpty = false then
          [Event.titleDraw plot.layout.titleRect]
        else []) ++
       ((if f.printLegend = true ∧ plot.legendPresent = true ∧
            plot.legendIsEmpty = false then
          printLegend plot plot.layout.legendRect
         else []) ++
        ((scaleLoop (printBodyState plot f)).2 ++
         (printCanvas p
            ((printTransform plot p).mapRect plot.layout.canvasRect)
            (rescaleMaps (printTransform plot p)
              (buildMaps plot plot.layout.canvasRect)) f ++
          [Event.invalidateLayout, Event.resetFilter])))) := by
  have hc : ¬(p.active = false ∨ rect.isValid = false ∨
      plot.sizeIsNull = true) := by simp [hp, hr, hs]
  by_cases hf : f.printFrameWithScales = true
  · simp [print, hc, hf, printBodyState, printTitle, scaleLoop_fst,
      zeroMargins_layout, zeroMargins_titleIsEmpty, zeroMargins_legendPresent,
      zeroMargins_legendIsEmpty, printLegend_zeroMargins, buildMaps_zeroMargins]
  · simp [print, hc, hf, printBodyState, printTitle, scaleLoop_fst]

/-! ### Locating the layout activation and the canvas draw in a trace -/

lemma findCanvasItems_cons_of (ev : Event) (rest : List Event)
    (h : ev.isCanvasItems = false) :
    findCanvasItems (ev :: rest) = findCanvasItems rest := by
  cases ev <;> simp_all [findCanvasItems, Event.isCanvasItems]

lemma findCanvasItems_append_of (l rest : List Event)
    (h : ∀ ev ∈ l, ev.isCanvasItems = false) :
    findCanvasItems (l ++ rest) = findCanvasItems rest := by
  induction l with
  | nil => rfl
  | cons ev t ih =>
      rw [List.cons_append, findCanvasItems_cons_of ev _ (h ev (by simp))]
      exact ih fun x hx => h x (by simp [hx])

lemma fromScale_not_canvasItems (ev : Event)
    (h : ev.fromScale = true) : ev.isCanvasItems = false := by
  cases ev <;> simp_all [Event.fromScale, Event.isCanvasItems]

lemma fromScale_not_titleDraw (ev : Event)
    (h : ev.fromScale = true) : ev.isTitleDraw = false := by
  cases ev <;> simp_all [Event.fromScale, Event.isTitleDraw]

lemma fromScale_not_legendDraw (ev : Event)
    (h : ev.fromScale = true) : ev.isLegendDraw = false := by
  cases ev <;> simp_all [Event.fromScale, Event.isLegendDraw]

lemma scaleLoop_snd_all (plot : PlotState) :
    ∀ ev ∈ (scaleLoop plot).2, ev.fromScale = true := by
  rw [scaleLoop_snd]
  intro ev hev
  simp only [List.mem_append] at hev
  have key : ∀ a, ev ∈ scaleEvsFor plot a → ev.fromScale = true := by
    intro a ha
    unfold scaleEvsFor at ha
    rcases h : plot.axisWidget a with _ | sw
    · rw [h] at ha; exact absurd ha (List.not_mem_nil ev)
    · rw [h] at ha; exact printScale_snd_all _ _ _ _ _ _ ev ha
  rcases hev with ((hev | hev) | hev) | hev
  · exact key _ hev
  · exact key _ hev
  · exact key _ hev
  · exact key _ hev

/-- The canvas drawing block surrenders its `drawItems` rectangle and maps
to `findCanvasItems` whatever the background and frame options are. -/
lemma findCanvasItems_printCanvas (p : Painter) (cr : Rect)
    (maps : AxisMaps) (f : PrintFilter) (rest : List Event) :
    findCanvasItems (printCanvas p cr maps f ++ rest) = some (cr, maps) := by
  unfold printCanvas
  by_cases h1 : f.printBackground = true <;>
    by_cases h2 : f.printFrameWithScales = true <;>
      simp [h1, h2, findCanvasItems]

/-- In a valid `print` call the canvas is drawn with the canvas rectangle
mapped to device resolution and the maps rescaled by the transform's
diagonal factors. -/
lemma print_findCanvasItems (plot : PlotState) (p : Painter) (rect : Rect)
    (f : PrintFilter) (hp : p.active = true) (hr : rect.isValid = true)
    (hs : plot.sizeIsNull = false) :
    findCanvasItems (print plot (some p) rect f).2 =
      some ((printTransform plot p).mapRect plot.layout.canvasRect,
        rescaleMaps (printTransform plot p)
          (buildMaps plot plot.layout.canvasRect)) := by
  have htitle : ∀ ev ∈ (if f.printTitle = true ∧ plot.titleIsEmpty = false
      then [Event.titleDraw plot.layout.titleRect] else []),
      ev.isCanvasItems = false := by
    intro ev hev
    split at hev
    · rcases List.mem_singleton.mp hev with rfl; rfl
    · exact absurd hev (List.not_mem_nil ev)
  have hlegend : ∀ ev ∈ (if f.printLegend = true ∧
      plot.legendPresent = true ∧ plot.legendIsEmpty = false
      then printLegend plot plot.layout.legendRect else []),
      ev.isCanvasItems = false := by
    intro ev hev
    split at hev
    · unfold printLegend at hev
      split at hev
      · exact absurd hev (List.not_mem_nil ev)
      · split at hev
        · exact absurd hev (List.not_mem_nil ev)
        · rcases List.mem_singleton.mp hev with rfl; rfl
    · exact absurd hev (List.not_mem_nil ev)
  have hscale : ∀ ev ∈ (scaleLoop (printBodyState plot f)).2,
      ev.isCanvasItems = false :=
    fun ev hev => fromScale_not_canvasItems ev (scaleLoop_snd_all _ ev hev)
  rw [print_trace plot p rect f hp hr hs,
    findCanvasItems_cons_of (Event.applyFilter _) _ rfl,
    findCanvasItems_cons_of (Event.activateLayout _ _) _ rfl,
    findCanvasItems_append_of _ _ htitle,
    findCanvasItems_append_of _ _ hlegend,
    findCanvasItems_append_of _ _ hscale,
    findCanvasItems_printCanvas]

/-! ### Counting region draws in a trace -/

lemma scaleLoop_countP_other (q : Event → Bool)
    (hq : ∀ ev, Event.fromScale ev = true → q ev = false)
    (plot : PlotState) : ((scaleLoop plot).2).countP q = 0 :=
  countP_eq_zero_of_fromScale (scaleLoop_snd_all plot) hq

lemma scaleEvsFor_countP_scaleDraw (plot : PlotState) (a : Axis) :
    (scaleEvsFor plot a).countP Event.isScaleDraw =
      if ((plot.axisWidget a).isSome && plot.axisEnabled a) = true then 1
      else 0 := by
  unfold scaleEvsFor
  cases h : plot.axisWidget a with
  | none => simp [h]
  | some sw =>
      rw [printScale_countP_scaleDraw, axisEnabledZ_axisIdx]
      simp [h]

lemma scaleLoop_countP_scaleDraw (plot : PlotState) :
    ((scaleLoop plot).2).countP Event.isScaleDraw =
      axisList.countP fun a =>
        (plot.axisWidget a).isSome && plot.axisEnabled a := by
  rw [scaleLoop_snd]
  simp only [List.countP_append, scaleEvsFor_countP_scaleDraw]
  simp only [axisList, List.countP_cons, List.countP_nil]
  ring

lemma printBodyState_isSome (plot : PlotState) (f : PrintFilter) (a : Axis) :
    ((printBodyState plot f).axisWidget a).isSome =
      (plot.axisWidget a).isSome := by
  unfold printBodyState
  split
  · simp [zeroMargins]
  · rfl

lemma printBodyState_axisEnabled (plot : PlotState) (f : PrintFilter) :
    (printBodyState plot f).axisEnabled = plot.axisEnabled := by
  unfold printBodyState
  split <;> rfl

lemma printLegend_countP_legendDraw (plot : PlotState) (r : Rect) :
    (printLegend plot r).countP Event.isLegendDraw =
      if plot.legendPresent = true ∧ plot.legendIsEmpty = false ∧
          plot.legendHasDynGridLayout = true then 1
      else 0 := by
  unfold printLegend
  by_cases h1 : plot.legendPresent = true <;>
    by_cases h2 : plot.legendIsEmpty = true <;>
      by_cases h3 : plot.legendHasDynGridLayout = true <;>
        simp [h1, h2, h3, Event.isLegendDraw]

lemma printLegend_countP_other (q : Event → Bool)
    (hq : ∀ r, q (Event.legendDraw r) = false)
    (plot : PlotState) (r : Rect) :
    (printLegend plot r).countP q = 0 := by
  unfold printLegend
  split
  · rfl
  · split
    · rfl
    · simp [hq]

lemma printCanvas_countP_canvasItems (p : Painter) (cr : Rect)
    (maps : AxisMaps) (f : PrintFilter) :
    (printCanvas p cr maps f).countP Event.isCanvasItems = 1 := by
  unfold printCanvas
  by_cases h1 : f.printBackground = true <;>
    by_cases h2 : f.printFrameWithScales = true <;>
      simp [h1, h2, Event.isCanvasItems]

lemma printCanvas_countP_other (q : Event → Bool)
    (hbg : ∀ r, q (Event.canvasBg r) = false)
    (hfr : ∀ r, q (Event.canvasFrame r) = false)
    (hci : ∀ r m, q (Event.canvasItems r m) = false)
    (p : Painter) (cr : Rect) (maps : AxisMaps) (f : PrintFilter) :
    (printCanvas p cr maps f).countP q = 0 := by
  unfold printCanvas
  by_cases h1 : f.printBackground = true <;>
    by_cases h2 : f.printFrameWithScales = true <;>
      simp [h1, h2, hbg, hfr, hci]

/-! ### Claim theorems -/

/-- Claim C1: for every call to `print` with a null or inactive painter, an
invalid (degenerate) rectangle or a null widget size, `print` returns
immediately: no drawing call is made, neither filter hook runs, and the
whole plot state (margins, scale-draw position and length, layout) is
unchanged. -/
theorem print_degenerate_noop (plot : PlotState) (painter : Option Painter)
    (rect : Rect) (f : PrintFilter)
    (h : (∀ p, painter = some p → p.active = false) ∨
      rect.isValid = false ∨ plot.sizeIsNull = true) :
    print plot painter rect f = (plot, []) := by
  cases painter with
  | none => rfl
  | some p =>
      rcases h with h | h | h
      · simp [print, h p rfl]
      · simp [print, h]
      · simp [print, h]

theorem print_degenerate_noop_witness :
    ((∀ p, (none : Option Painter) = some p → p.active = false) ∨
      sampleRect.isValid = false ∨ samplePlot.sizeIsNull = true) ∧
    print samplePlot none sampleRect sampleFilter = (samplePlot, []) :=
  ⟨Or.inl (fun _ hp => nomatch hp),
   print_degenerate_noop samplePlot none sampleRect sampleFilter
     (Or.inl (fun _ hp => nomatch hp))⟩

/-- Claim C2: with `PrintFrameWithScales` set, every axis scale widget's
margin after `print` returns equals its margin before the call, although
the state in effect during the call has the margin zeroed. -/
theorem print_margin_roundtrip (plot : PlotState) (p : Painter)
    (rect : Rect) (f : PrintFilter) (hp : p.active = true)
    (hr : rect.isValid = true) (hs : plot.sizeIsNull = false)
    (hf : f.printFrameWithScales = true) :
    (∀ a, ((print plot (some p) rect f).1.axisWidget a).map
        ScaleWidgetState.margin =
        (plot.axisWidget a).map ScaleWidgetState.margin) ∧
    (∀ a sw, (printBodyState plot f).axisWidget a = some sw →
      sw.margin = 0) := by
  constructor
  · intro a
    rw [print_fst_eq]
  · intro a sw hsw
    rw [printBodyState, if_pos hf] at hsw
    simp only [zeroMargins] at hsw
    rcases Option.map_eq_some'.mp hsw with ⟨w0, _, rfl⟩
    rfl

theorem print_margin_roundtrip_witness :
    samplePainter.active = true ∧ sampleRect.isValid = true ∧
    samplePlot.sizeIsNull = false ∧
    sampleFilter.printFrameWithScales = true ∧
    ((∀ a, ((print samplePlot (some samplePainter) sampleRect
        sampleFilter).1.axisWidget a).map ScaleWidgetState.margin =
        (samplePlot.axisWidget a).map ScaleWidgetState.margin) ∧
     (∀ a sw, (printBodyState samplePlot sampleFilter).axisWidget a =
        some sw → sw.margin = 0)) := by
  refine ⟨rfl, by decide, rfl, rfl, ?_⟩
  exact print_margin_roundtrip samplePlot samplePainter sampleRect
    sampleFilter rfl (by decide) rfl rfl

/-- Claim C3 as stated is false: the scale-printing loop of lines 126-139
carries no filter check, so with `filter = PrintTitle | PrintLegend`, a
non-empty title and a non-empty legend, a plot with enabled axes still
gets its scales drawn (here two of them), contradicting "no scale is
drawn". -/
theorem print_filter_scales_counterexample :
    titleLegendFilter.printTitle = true ∧
    titleLegendFilter.printLegend = true ∧
    samplePlot.titleIsEmpty = false ∧
    samplePlot.legendPresent = true ∧
    samplePlot.legendIsEmpty = false ∧
    (print samplePlot (some samplePainter) sampleRect
        titleLegendFilter).2.countP Event.isScaleDraw = 2 ∧
    (2 : ℕ) ≠ 0 := by
  decide

/-- Claim C3, amended: in a valid `print` call the title is drawn exactly
when `PrintTitle` is set and the title is non-empty, the legend exactly
when `PrintLegend` is set and the legend is present, non-empty and uses a
dynamic grid layout, the canvas is always drawn exactly once, and — unlike
the claim's "only the regions whose flag is set" — one scale is drawn for
every axis that has a scale widget and is enabled, regardless of the
filter. -/
theorem print_region_draw_counts (plot : PlotState) (p : Painter)
    (rect : Rect) (f : PrintFilter) (hp : p.active = true)
    (hr : rect.isValid = true) (hs : plot.sizeIsNull = false) :
    ((print plot (some p) rect f).2.countP Event.isTitleDraw =
      if f.printTitle = true ∧ plot.titleIsEmpty = false then 1 else 0) ∧
    ((print plot (some p) rect f).2.countP Event.isLegendDraw =
      if f.printLegend = true ∧ plot.legendPresent = true ∧
          plot.legendIsEmpty = false ∧ plot.legendHasDynGridLayout = true
        then 1 else 0) ∧
    ((print plot (some p) rect f).2.countP Event.isCanvasItems = 1) ∧
    ((print plot (some p) rect f).2.countP Event.isScaleDraw =
      axisList.countP fun a =>
        (plot.axisWidget a).isSome && plot.axisEnabled a) := by
  rw [print_trace plot p rect f hp hr hs]
  refine ⟨?_, ?_, ?_, ?_⟩
  · simp only [List.countP_cons, List.countP_append, List.countP_nil,
      apply_ite (List.countP Event.isTitleDraw),
      scaleLoop_countP_other Event.isTitleDraw fromScale_not_titleDraw,
      printCanvas_countP_other Event.isTitleDraw (fun _ => rfl)
        (fun _ => rfl) (fun _ _ => rfl),
      printLegend_countP_other Event.isTitleDraw (fun _ => rfl)]
    simp [Event.isTitleDraw]
  · simp only [List.countP_cons, List.countP_append, List.countP_nil,
      apply_ite (List.countP Event.isLegendDraw),
      scaleLoop_countP_other Event.isLegendDraw fromScale_not_legendDraw,
      printCanvas_countP_other Event.isLegendDraw (fun _ => rfl)
        (fun _ => rfl) (fun _ _ => rfl),
      printLegend_countP_legendDraw]
    by_cases h1 : f.printLegend = true <;>
      by_cases h2 : plot.legendPresent = true <;>
        by_cases h3 : plot.legendIsEmpty = false <;>
          by_cases h4 : plot.legendHasDynGridLayout = true <;>
            simp [h1, h2, h3, h4, Event.isLegendDraw]
  · simp only [List.countP_cons, List.countP_append, List.countP_nil,
      apply_ite (List.countP Event.isCanvasItems),
      scaleLoop_countP_other Event.isCanvasItems fromScale_not_canvasItems,
      printCanvas_countP_canvasItems,
      printLegend_countP_other Event.isCanvasItems (fun _ => rfl)]
    simp [Event.isCanvasItems]
  · simp only [List.countP_cons, List.countP_append, List.countP_nil,
      apply_ite (List.countP Event.isScaleDraw),
      scaleLoop_countP_scaleDraw,
      printCanvas_countP_other Event.isScaleDraw (fun _ => rfl)
        (fun _ => rfl) (fun _ _ => rfl),
      printLegend_countP_other Event.isScaleDraw (fun _ => rfl)]
    simp [Event.isScaleDraw, printBodyState_isSome, printBodyState_axisEnabled]

theorem print_region_draw_counts_witness :
    samplePainter.active = true ∧ sampleRect.isValid = true ∧
    samplePlot.sizeIsNull = false ∧
    (((print samplePlot (some samplePainter) sampleRect
        titleLegendFilter).2.countP Event.isTitleDraw =
      if titleLegendFilter.printTitle = true ∧
          samplePlot.titleIsEmpty = false then 1 else 0) ∧
    ((print samplePlot (some samplePainter) sampleRect
        titleLegendFilter).2.countP Event.isLegendDraw =
      if titleLegendFilter.printLegend = true ∧
          samplePlot.legendPresent = true ∧
          samplePlot.legendIsEmpty = false ∧
          samplePlot.legendHasDynGridLayout = true then 1 else 0) ∧
    ((print samplePlot (some samplePainter) sampleRect
        titleLegendFilter).2.countP Event.isCanvasItems = 1) ∧
    ((print samplePlot (some samplePainter) sampleRect
        titleLegendFilter).2.countP Event.isScaleDraw =
      axisList.countP fun a =>
        (samplePlot.axisWidget a).isSome && samplePlot.axisEnabled a)) := by
  refine ⟨rfl, by decide, rfl, ?_⟩
  exact print_region_draw_counts samplePlot samplePainter sampleRect
    titleLegendFilter rfl (by decide) rfl

/-- Claim C4: in a valid `print` call the rectangle handed to the canvas
drawing is the layout-space canvas rectangle mapped through the DPI scale
transform, and each axis's paint-interval endpoints are the layout-space
endpoints multiplied by the transform's `m11` for the horizontal axes and
`m22` for the vertical ones. -/
theorem print_canvas_dpi_rescaled (plot : PlotState) (p : Painter)
    (rect : Rect) (f : PrintFilter) (hp : p.active = true)
    (hr : rect.isValid = true) (hs : plot.sizeIsNull = false) :
    findCanvasItems (print plot (some p) rect f).2 =
      some ((printTransform plot p).mapRect plot.layout.canvasRect,
        rescaleMaps (printTransform plot p)
          (buildMaps plot plot.layout.canvasRect)) ∧
    ∀ a : Axis,
      ((rescaleMaps (printTransform plot p)
          (buildMaps plot plot.layout.canvasRect)).get a).p1 =
        (layoutPaintInterval plot plot.layout.canvasRect a).1 *
          (if a.isHorizontal = true then (printTransform plot p).m11
           else (printTransform plot p).m22) ∧
      ((rescaleMaps (printTransform plot p)
          (buildMaps plot plot.layout.canvasRect)).get a).p2 =
        (layoutPaintInterval plot plot.layout.canvasRect a).2 *
          (if a.isHorizontal = true then (printTransform plot p).m11
           else (printTransform plot p).m22) := by
  refine ⟨print_findCanvasItems plot p rect f hp hr hs, ?_⟩
  intro a
  cases a <;>
    simp [rescaleMaps, rescaleMap, buildMaps, buildMap, AxisMaps.get,
      Axis.isHorizontal]

theorem print_canvas_dpi_rescaled_witness :
    samplePainter.active = true ∧ sampleRect.isValid = true ∧
    samplePlot.sizeIsNull = false ∧
    (findCanvasItems (print samplePlot (some samplePainter) sampleRect
        plainFilter).2 =
      some ((printTransform samplePlot samplePainter).mapRect
          samplePlot.layout.canvasRect,
        rescaleMaps (printTransform samplePlot samplePainter)
          (buildMaps samplePlot samplePlot.layout.canvasRect)) ∧
    ∀ a : Axis,
      ((rescaleMaps (printTransform samplePlot samplePainter)
          (buildMaps samplePlot samplePlot.layout.canvasRect)).get a).p1 =
        (layoutPaintInterval samplePlot samplePlot.layout.canvasRect a).1 *
          (if a.isHorizontal = true
           then (printTransform samplePlot samplePainter).m11
           else (printTransform samplePlot samplePainter).m22) ∧
      ((rescaleMaps (printTransform samplePlot samplePainter)
          (buildMaps samplePlot samplePlot.layout.canvasRect)).get a).p2 =
        (layoutPaintInterval samplePlot samplePlot.layout.canvasRect a).2 *
          (if a.isHorizontal = true
           then (printTransform samplePlot samplePainter).m11
           else (printTransform samplePlot samplePainter).m22)) := by
  refine ⟨rfl, by decide, rfl, ?_⟩
  exact print_canvas_dpi_rescaled samplePlot samplePainter sampleRect
    plainFilter rfl (by decide) rfl

/-- Claim C5 as stated is false: nothing in the code forces an enabled
vertical axis's border distances to fit inside the scale rectangle the
layout returns, and when they do not (here start 0, end 70 against height
60), the paint interval handed to canvas drawing has its "from" pixel 10
strictly below its "to" pixel 20. -/
theorem vertical_axis_orientation_counterexample :
    samplePainter.active = true ∧ sampleRect.isValid = true ∧
    wideDistPlot.sizeIsNull = false ∧
    wideDistPlot.axisEnabled Axis.yLeft = true ∧
    canvasMapP (print wideDistPlot (some samplePainter) sampleRect
        plainFilter).2 Axis.yLeft = some (10, 20) ∧
    ¬((20 : ℚ) ≤ 10) := by
  refine ⟨rfl, by decide, rfl, by decide, ?_, by norm_num⟩
  rw [canvasMapP, print_findCanvasItems wideDistPlot samplePainter
    sampleRect plainFilter rfl (by decide) rfl]
  simp only [Option.map_some']
  simp [rescaleMaps, rescaleMap, buildMaps, buildMap, AxisMaps.get,
    layoutPaintInterval, wideDistPlot, wideDistWidget, samplePlot,
    sampleWidget, sampleLayout, samplePainter, widgetD, printTransform,
    Axis.isHorizontal, Rect.bottom, Rect.top, Transform.m11, Transform.m22]
  norm_num

/-- Claim C5, amended: for an enabled vertical axis whose start plus end
border distances do not exceed the height of its scale rectangle, the
layout-space paint interval runs downward: the "from" endpoint (data
minimum) has a pixel Y-coordinate at least that of the "to" endpoint. -/
theorem vertical_axis_orientation (plot : PlotState) (cr : Rect) (a : Axis)
    (hv : a = Axis.yLeft ∨ a = Axis.yRight)
    (he : plot.axisEnabled a = true)
    (hd : ((widgetD (plot.axisWidget a)).startBorderDist : ℚ) +
        ((widgetD (plot.axisWidget a)).endBorderDist : ℚ) ≤
        (plot.layout.scaleRect a).h) :
    (layoutPaintInterval plot cr a).2 ≤ (layoutPaintInterval plot cr a).1 := by
  rcases hv with rfl | rfl <;>
    · simp only [layoutPaintInterval, he, if_true, Rect.bottom, Rect.top]
      linarith [hd]

theorem vertical_axis_orientation_witness :
    (Axis.yLeft = Axis.yLeft ∨ Axis.yLeft = Axis.yRight) ∧
    samplePlot.axisEnabled Axis.yLeft = true ∧
    ((widgetD (samplePlot.axisWidget Axis.yLeft)).startBorderDist : ℚ) +
      ((widgetD (samplePlot.axisWidget Axis.yLeft)).endBorderDist : ℚ) ≤
      (samplePlot.layout.scaleRect Axis.yLeft).h ∧
    (layoutPaintInterval samplePlot samplePlot.layout.canvasRect
        Axis.yLeft).2 ≤
      (layoutPaintInterval samplePlot samplePlot.layout.canvasRect
        Axis.yLeft).1 := by
  have hd : ((widgetD (samplePlot.axisWidget Axis.yLeft)).startBorderDist :
      ℚ) + ((widgetD (samplePlot.axisWidget Axis.yLeft)).endBorderDist : ℚ)
      ≤ (samplePlot.layout.scaleRect Axis.yLeft).h := by
    norm_num [samplePlot, sampleWidget, sampleLayout, widgetD]
  refine ⟨Or.inl rfl, rfl, hd, ?_⟩
  exact vertical_axis_orientation samplePlot samplePlot.layout.canvasRect
    Axis.yLeft (Or.inl rfl) rfl hd

/-- Claim C6: `printScale` restores the axis's scale-draw position and
length on every path, including the early returns for a disabled axis and
for an out-of-range axis id. -/
theorem printScale_sd_roundtrip (plot : PlotState)
    (axisId startDist endDist baseDist : ℤ) (r : Rect) (a : Axis) :
    ((printScale plot axisId startDist endDist baseDist r).1.axisWidget
        a).map (fun sw => (sw.sdPos, sw.sdLength)) =
      ((plot.axisWidget a).map fun sw => (sw.sdPos, sw.sdLength)) := by
  rw [printScale_fst]

/-- Claim C7 as stated is false: the disabled-axis paint interval uses
`canvasRect.bottom() - 1 - margin` (and `right() - 1 - margin`), one pixel
less than the claim's "bottom-minus-margin".  With canvas rectangle
(10, 20, 80, 60) and margin 2 the code hands the canvas drawing 77 for the
disabled right axis, while the claim's formula gives 78. -/
theorem disabled_axis_interval_counterexample :
    unitPainter.active = true ∧ sampleRect.isValid = true ∧
    samplePlot.sizeIsNull = false ∧
    samplePlot.axisEnabled Axis.yRight = false ∧
    canvasMapP (print samplePlot (some unitPainter) sampleRect
        plainFilter).2 Axis.yRight = some (77, 22) ∧
    samplePlot.layout.canvasRect.bottom -
      (samplePlot.layout.canvasMargin Axis.yRight : ℚ) = 78 ∧
    (77 : ℚ) ≠ 78 := by
  refine ⟨rfl, by decide, rfl, by decide, ?_,
    by norm_num [samplePlot, sampleLayout, Rect.bottom], by norm_num⟩
  rw [canvasMapP, print_findCanvasItems samplePlot unitPainter sampleRect
    plainFilter rfl (by decide) rfl]
  simp only [Option.map_some']
  simp [rescaleMaps, rescaleMap, buildMaps, buildMap, AxisMaps.get,
    layoutPaintInterval, samplePlot, sampleLayout, unitPainter,
    printTransform, Axis.isHorizontal, Rect.bottom, Rect.top,
    Transform.m11, Transform.m22]
  norm_num

/-- Claim C7, amended: for a disabled axis the layout-space paint interval
is taken from the canvas rectangle and the canvas margin only — bottom
minus one minus margin down to top plus margin for the vertical axes, left
plus margin up to right minus one minus margin for the horizontal ones —
never from a scale rectangle. -/
theorem disabled_axis_interval (plot : PlotState) (cr : Rect) (a : Axis)
    (hd : plot.axisEnabled a = false) :
    layoutPaintInterval plot cr a =
      if a = Axis.yLeft ∨ a = Axis.yRight then
        (cr.bottom - 1 - (plot.layout.canvasMargin a : ℚ),
         cr.top + (plot.layout.canvasMargin a : ℚ))
      else
        (cr.left + (plot.layout.canvasMargin a : ℚ),
         cr.right - 1 - (plot.layout.canvasMargin a : ℚ)) := by
  cases a <;> simp [layoutPaintInterval, hd]

theorem disabled_axis_interval_witness :
    samplePlot.axisEnabled Axis.yRight = false ∧
    layoutPaintInterval samplePlot samplePlot.layout.canvasRect Axis.yRight =
      if Axis.yRight = Axis.yLeft ∨ Axis.yRight = Axis.yRight then
        (samplePlot.layout.canvasRect.bottom - 1 -
          (samplePlot.layout.canvasMargin Axis.yRight : ℚ),
         samplePlot.layout.canvasRect.top +
          (samplePlot.layout.canvasMargin Axis.yRight : ℚ))
      else
        (samplePlot.layout.canvasRect.left +
          (samplePlot.layout.canvasMargin Axis.yRight : ℚ),
         samplePlot.layout.canvasRect.right - 1 -
          (samplePlot.layout.canvasMargin Axis.yRight : ℚ)) := by
  refine ⟨by decide, ?_⟩
  exact disabled_axis_interval samplePlot samplePlot.layout.canvasRect
    Axis.yRight (by decide)

/-- Claim C8: in a valid `print` call the layout engine is activated with
ignore-scrollbars and ignore-frames always set, ignore-margin exactly when
`PrintMargin` is unset, ignore-legend exactly when `PrintLegend` is unset,
and with the print rectangle mapped through the inverse of the DPI scale
transform. -/
theorem print_layout_activation (plot : PlotState) (p : Painter)
    (rect : Rect) (f : PrintFilter) (hp : p.active = true)
    (hr : rect.isValid = true) (hs : plot.sizeIsNull = false) :
    findActivate (print plot (some p) rect f).2 =
      some ((printTransform plot p).inverted.mapRect rect,
        { ignoreScrollbars := true, ignoreFrames := true,
          ignoreMargin := !f.printMargin,
          ignoreLegend := !f.printLegend }) := by
  rw [print_trace plot p rect f hp hr hs]
  rfl

theorem print_layout_activation_witness :
    samplePainter.active = true ∧ sampleRect.isValid = true ∧
    samplePlot.sizeIsNull = false ∧
    findActivate (print samplePlot (some samplePainter) sampleRect
        sampleFilter).2 =
      some ((printTransform samplePlot samplePainter).inverted.mapRect
          sampleRect,
        { ignoreScrollbars := true, ignoreFrames := true,
          ignoreMargin := !sampleFilter.printMargin,
          ignoreLegend := !sampleFilter.printLegend }) := by
  refine ⟨rfl, by decide, rfl, ?_⟩
  exact print_layout_activation samplePlot samplePainter sampleRect
    sampleFilter rfl (by decide) rfl

/-- Claim C9: the orientation branch on the color-bar offset adds the same
amount in both branches, so `printScale` is extensionally the routine that
adds the offset unconditionally. -/
theorem printScale_colorbar_offset_equiv (plot : PlotState)
    (axisId startDist endDist baseDist : ℤ) (r : Rect) :
    printScale plot axisId startDist endDist baseDist r =
      printScaleUncond plot axisId startDist endDist baseDist r := by
  unfold printScale printScaleUncond
  simp only [ite_self]

/-- Claim C10: the paint-device overload's target rectangle starts at the
origin with the device's width and height, except that a portrait device
(width strictly below height) gets height `int((width / height) * width)`,
which is strictly below the device height; landscape and square devices
keep the full device rectangle. -/
theorem devicePrintRect_spec (w h : ℕ) :
    (w < h → devicePrintRect w h =
        { x := 0, y := 0, w := (w : ℚ), h := ((w * w / h : ℕ) : ℚ) } ∧
        (w * w / h : ℕ) < h) ∧
    (h ≤ w → devicePrintRect w h =
        { x := 0, y := 0, w := (w : ℚ), h := (h : ℚ) }) := by
  constructor
  · intro hwh
    have h0 : 0 < h := lt_of_le_of_lt (Nat.zero_le w) hwh
    have h0q : (0 : ℚ) < (h : ℚ) := by exact_mod_cast h0
    have hcond : 0 < h ∧ (w : ℚ) / (h : ℚ) < 1 :=
      ⟨h0, by rw [div_lt_one h0q]; exact_mod_cast hwh⟩
    constructor
    · unfold devicePrintRect
      rw [if_pos hcond]
      have harg : (w : ℚ) / (h : ℚ) * (w : ℚ) =
          ((w * w : ℕ) : ℚ) / ((h : ℕ) : ℚ) := by
        push_cast
        ring
      have hnn : (0 : ℚ) ≤ (w : ℚ) / (h : ℚ) * (w : ℚ) := by positivity
      have htr : cTrunc ((w : ℚ) / (h : ℚ) * (w : ℚ)) =
          ((w * w / h : ℕ) : ℤ) := by
        rw [cTrunc, if_pos hnn, harg, Rat.floor_natCast_div_natCast]
        exact (Int.ofNat_div _ _).symm
      rw [htr]
      norm_cast
    · rw [Nat.div_lt_iff_lt_mul h0]
      exact Nat.mul_lt_mul'' hwh hwh
  · intro hhw
    unfold devicePrintRect
    rw [if_neg]
    rintro ⟨h0, hlt⟩
    rw [div_lt_one (by exact_mod_cast h0)] at hlt
    have hcast : w < h := by exact_mod_cast hlt
    omega

theorem devicePrintRect_spec_witness :
    ((2 : ℕ) < 4 ∧ devicePrintRect 2 4 =
        { x := 0, y := 0, w := ((2 : ℕ) : ℚ),
          h := ((2 * 2 / 4 : ℕ) : ℚ) } ∧
        (2 * 2 / 4 : ℕ) < 4) ∧
    ((2 : ℕ) ≤ 4 ∧ devicePrintRect 4 2 =
        { x := 0, y := 0, w := ((4 : ℕ) : ℚ), h := ((2 : ℕ) : ℚ) }) :=
  ⟨⟨by decide, (devicePrintRect_spec 2 4).1 (by decide)⟩,
   ⟨by decide, (devicePrintRect_spec 4 2).2 (by decide)⟩⟩

end Qwt
